import Mathlib

/-!
Shallow embedding of the ledger core of `src/tienda_libros.py` (class `Tienda`
and its use of `DatabaseManager`), together with proofs of the specified
properties.

Modelling conventions:
* Python `Decimal` money values are modelled as `ℚ` (the `Decimal` arithmetic
  performed by the code on these values is exact).
* The relational store is modelled as explicit row lists in insertion order:
  table `Libros` as `List Libro`, table `Transacciones` as `List Transaccion`,
  and the row of `ConfiguracionTienda` with key `Caja` as an `Option ℚ`.
  Transaction timestamps and auto-assigned ids are omitted: no verified claim
  mentions them.
* Each fallible write (`execute_query` on a DML statement, and the final
  `commit`) consumes one entry of a fault list `faults : List Bool`
  (`true` at position `i` makes the `i`-th write step of the call raise, as a
  `pyodbc` error would).  The `try/except` blocks of `registrar_libro`,
  `abastecer_libro` and `vender_libro` are modelled by a body returning
  `Except String`: the `.error` branch of the wrapper performs exactly what the
  `except` branch of the Python code does (`self.db.rollback()` discarding the
  uncommitted writes, restoring `original_caja_val`, returning a failure pair).
* Read queries (`SELECT`) are modelled as total lookups on the row lists,
  except in `_cargar_caja_desde_db` where the claim explicitly covers a
  failing read.
-/

namespace TiendaLibros

/-- Row of table `Libros`; mirrors class `Libro` of the source
(`isbn`, `titulo`, `precio_compra`, `precio_venta`, `cantidad_actual`). -/
structure Libro where
  isbn : String
  titulo : String
  precioCompra : ℚ
  precioVenta : ℚ
  cantidadActual : Int
deriving DecidableEq, Repr

/-- Kind of a ledger entry: the source writes the literal strings
`"venta"` and `"abastecimiento"` into column `TipoTransaccion`. -/
inductive TipoTransaccion where
  | venta
  | abastecimiento
deriving DecidableEq, Repr

/-- Row of table `Transacciones` (column `LibroISBN`, `TipoTransaccion`,
`Cantidad`); the timestamp column is omitted, no claim depends on it. -/
structure Transaccion where
  isbn : String
  tipo : TipoTransaccion
  cantidad : Int
deriving DecidableEq, Repr

/-- The durable state: the three tables touched by the ledger core. -/
structure DB where
  libros : List Libro
  transacciones : List Transaccion
  configCaja : Option ℚ
deriving DecidableEq, Repr

/-- The state of a `Tienda` object: the durable store plus the in-memory
cash attribute `self.caja`. -/
structure Tienda where
  db : DB
  caja : ℚ
deriving DecidableEq, Repr

/-- Outcome of an operation, one constructor per `return` site of the
source methods (the human-readable message is abstracted to its kind;
`errPersistencia` keeps the exception text as the code interpolates it). -/
inductive Resultado where
  | exitoRegistrado
  | exitoRegistradoConAbastecimiento
  | exitoRegistradoSinFondos
  | exitoAbastecido
  | exitoVendido
  | errDuplicateKey
  | errNotFound
  | errInvalidQuantity
  | errInsufficientFunds
  | errInsufficientStock
  | errPersistencia (detalle : String)
deriving DecidableEq, Repr

/-- `SELECT ... FROM Libros WHERE ISBN = ?` with `fetchone`: the first row
whose `ISBN` column equals the argument (method `buscar_libro_por_isbn`). -/
def buscar_libro_por_isbn (db : DB) (isbn : String) : Option Libro :=
  db.libros.find? (fun l => l.isbn == isbn)

/-- `UPDATE Libros SET CantidadActual = ? WHERE ISBN = ?`: every row whose
`ISBN` equals the argument gets the new quantity. -/
def updateCantidad (libros : List Libro) (isbn : String) (q : Int) : List Libro :=
  libros.map (fun l => if l.isbn == isbn then { l with cantidadActual := q } else l)

/-- Body of the `try` block of `registrar_libro`: the INSERT into `Libros`,
then (for positive initial quantity) either the funded path
(`self.caja -= costo`, `_actualizar_caja_en_db`, `_registrar_transaccion_db`)
or, when the cash is insufficient, the corrective
`UPDATE Libros SET CantidadActual = 0`; finally `self.db.commit()`.
Each write step consults the fault list in program order. -/
def regBody (db : DB) (caja : ℚ) (faults : List Bool) (isbn titulo : String)
    (precio_compra precio_venta : ℚ) (cantidad_inicial : Int) :
    Except String (DB × ℚ × Resultado) :=
  if faults.getD 0 false then
    .error "Error al insertar el libro en la tabla Libros."
  else
    let db1 : DB :=
      { db with libros := db.libros ++ [⟨isbn, titulo, precio_compra, precio_venta, cantidad_inicial⟩] }
    if cantidad_inicial > 0 then
      let costo := precio_compra * (cantidad_inicial : ℚ)
      if caja ≥ costo then
        let caja1 := caja - costo
        if faults.getD 1 false then
          .error "Fallo al preparar la actualizacion de la caja en la base de datos."
        else
          let db2 : DB := { db1 with configCaja := some caja1 }
          if faults.getD 2 false then
            .error "Fallo al preparar el registro de la transaccion en la base de datos."
          else
            let db3 : DB :=
              { db2 with transacciones := db2.transacciones ++ [⟨isbn, .abastecimiento, cantidad_inicial⟩] }
            if faults.getD 3 false then
              .error "No se pudo hacer commit"
            else
              .ok (db3, caja1, .exitoRegistradoConAbastecimiento)
      else
        if faults.getD 1 false then
          .error "Fallo al actualizar stock a 0 del libro por falta de caja."
        else
          let db2 : DB := { db1 with libros := updateCantidad db1.libros isbn 0 }
          if faults.getD 2 false then
            .error "No se pudo hacer commit"
          else
            .ok (db2, caja, .exitoRegistradoSinFondos)
    else
      if faults.getD 1 false then
        .error "No se pudo hacer commit"
      else
        .ok (db1, caja, .exitoRegistrado)

/-- Method `Tienda.registrar_libro`: duplicate check by a read, then the
transactional body; on any raised write failure the `except` branch rolls the
durable state back and restores `original_caja_val`. -/
def registrar_libro (t : Tienda) (faults : List Bool) (isbn titulo : String)
    (precio_compra precio_venta : ℚ) (cantidad_inicial : Int) :
    Tienda × Bool × Resultado :=
  if (buscar_libro_por_isbn t.db isbn).isSome then
    (t, false, .errDuplicateKey)
  else
    let original_caja_val := t.caja
    match regBody t.db t.caja faults isbn titulo precio_compra precio_venta cantidad_inicial with
    | .ok (db1, caja1, res) => (⟨db1, caja1⟩, true, res)
    | .error e => (⟨t.db, original_caja_val⟩, false, .errPersistencia e)

/-- Body of the `try` block of `abastecer_libro`: UPDATE of the stock,
`self.caja -= costo`, `_actualizar_caja_en_db`, `_registrar_transaccion_db`,
`self.db.commit()`. -/
def abBody (db : DB) (caja : ℚ) (faults : List Bool) (isbn : String)
    (libro : Libro) (cantidad : Int) :
    Except String (DB × ℚ × Resultado) :=
  let nueva_cantidad_stock := libro.cantidadActual + cantidad
  if faults.getD 0 false then
    .error "Fallo al actualizar el stock del libro."
  else
    let db1 : DB := { db with libros := updateCantidad db.libros isbn nueva_cantidad_stock }
    let caja1 := caja - libro.precioCompra * (cantidad : ℚ)
    if faults.getD 1 false then
      .error "Fallo al preparar la actualizacion de la caja en la base de datos."
    else
      let db2 : DB := { db1 with configCaja := some caja1 }
      if faults.getD 2 false then
        .error "Fallo al preparar el registro de la transaccion en la base de datos."
      else
        let db3 : DB := { db2 with transacciones := db2.transacciones ++ [⟨isbn, .abastecimiento, cantidad⟩] }
        if faults.getD 3 false then
          .error "No se pudo hacer commit"
        else
          .ok (db3, caja1, .exitoAbastecido)

/-- Method `Tienda.abastecer_libro`: lookup, the two precondition checks
(`cantidad <= 0`, `self.caja < costo`), then the transactional body with the
same rollback discipline as registration. -/
def abastecer_libro (t : Tienda) (faults : List Bool) (isbn : String) (cantidad : Int) :
    Tienda × Bool × Resultado :=
  match buscar_libro_por_isbn t.db isbn with
  | none => (t, false, .errNotFound)
  | some libro =>
    if cantidad ≤ 0 then (t, false, .errInvalidQuantity)
    else
      let costo := libro.precioCompra * (cantidad : ℚ)
      if t.caja < costo then (t, false, .errInsufficientFunds)
      else
        let original_caja_val := t.caja
        match abBody t.db t.caja faults isbn libro cantidad with
        | .ok (db1, caja1, res) => (⟨db1, caja1⟩, true, res)
        | .error e => (⟨t.db, original_caja_val⟩, false, .errPersistencia e)

/-- Body of the `try` block of `vender_libro`: UPDATE of the stock,
`self.caja += ingreso_venta`, `_actualizar_caja_en_db`,
`_registrar_transaccion_db`, `self.db.commit()`. -/
def ventaBody (db : DB) (caja : ℚ) (faults : List Bool) (isbn : String)
    (libro : Libro) (cantidad : Int) :
    Except String (DB × ℚ × Resultado) :=
  let nueva_cantidad_stock := libro.cantidadActual - cantidad
  if faults.getD 0 false then
    .error "Fallo al actualizar el stock del libro."
  else
    let db1 : DB := { db with libros := updateCantidad db.libros isbn nueva_cantidad_stock }
    let caja1 := caja + libro.precioVenta * (cantidad : ℚ)
    if faults.getD 1 false then
      .error "Fallo al preparar la actualizacion de la caja en la base de datos."
    else
      let db2 : DB := { db1 with configCaja := some caja1 }
      if faults.getD 2 false then
        .error "Fallo al preparar el registro de la transaccion en la base de datos."
      else
        let db3 : DB := { db2 with transacciones := db2.transacciones ++ [⟨isbn, .venta, cantidad⟩] }
        if faults.getD 3 false then
          .error "No se pudo hacer commit"
        else
          .ok (db3, caja1, .exitoVendido)

/-- Method `Tienda.vender_libro`: lookup, the two precondition checks
(`cantidad <= 0`, `libro.cantidad_actual < cantidad`), then the transactional
body with the same rollback discipline. -/
def vender_libro (t : Tienda) (faults : List Bool) (isbn : String) (cantidad : Int) :
    Tienda × Bool × Resultado :=
  match buscar_libro_por_isbn t.db isbn with
  | none => (t, false, .errNotFound)
  | some libro =>
    if cantidad ≤ 0 then (t, false, .errInvalidQuantity)
    else if libro.cantidadActual < cantidad then (t, false, .errInsufficientStock)
    else
      let original_caja_val := t.caja
      match ventaBody t.db t.caja faults isbn libro cantidad with
      | .ok (db1, caja1, res) => (⟨db1, caja1⟩, true, res)
      | .error e => (⟨t.db, original_caja_val⟩, false, .errPersistencia e)

/-- Method `Tienda._cargar_caja_desde_db`.  A failing `SELECT` makes
`execute_query` return `None`, indistinguishable from an absent row, so
`selectFails` folds into the absent branch exactly as in the source; the
seeding `INSERT ... commit_flag=True` is one independently committed write
whose failure (`insertFails`) keeps the seed in memory and shows the warning
message box.  Returns the store, the resulting `self.caja` and whether the
non-fatal warning was reported. -/
def cargar_caja_desde_db (db : DB) (valor_por_defecto : ℚ)
    (selectFails insertFails : Bool) : DB × ℚ × Bool :=
  let row := if selectFails then none else db.configCaja
  match row with
  | some v => (db, v, false)
  | none =>
    if insertFails then
      (db, valor_por_defecto, true)
    else
      ({ db with configCaja := some valor_por_defecto }, valor_por_defecto, false)

/-- The store right after `Tienda.__init__` on an empty database with default
seed `seed`: `_cargar_caja_desde_db` found no `Caja` row, persisted the seed
and adopted it. -/
def tiendaInicial (seed : ℚ) : Tienda :=
  ⟨⟨[], [], some seed⟩, seed⟩

/-- Whether the first character list occurs at the head of the second. -/
def esPrefijoDe : List Char → List Char → Bool
  | [], _ => true
  | _ :: _, [] => false
  | a :: as, b :: bs => a == b && esPrefijoDe as bs

/-- Whether the first character list occurs contiguously inside the second. -/
def esInfijoDe (sub : List Char) : List Char → Bool
  | [] => esPrefijoDe sub []
  | b :: bs => esPrefijoDe sub (b :: bs) || esInfijoDe sub bs

/-- The `Titulo LIKE ?` match with pattern `f'%titulo_parcial%'`.
Modelled from the spec: the SQL Server collation applied by the deployed
database is not part of the repository, and the spec fixes the match as
case-insensitive substring containment, so both character sequences are
lowercased before the containment test. -/
def coincideTitulo (titulo_parcial titulo : String) : Bool :=
  esInfijoDe (titulo_parcial.data.map Char.toLower) (titulo.data.map Char.toLower)

/-- Method `Tienda.buscar_libros_por_titulo`:
`SELECT ... FROM Libros WHERE Titulo LIKE ?` with `fetchall` and no
`ORDER BY` clause, so the rows come back in table order. -/
def buscar_libros_por_titulo (db : DB) (titulo_parcial : String) : List Libro :=
  db.libros.filter (fun l => coincideTitulo titulo_parcial l.titulo)

/-- Specification-side statement of case-insensitive substring containment:
the lowercased needle occurs contiguously inside the lowercased title. -/
def TituloContiene (titulo_parcial titulo : String) : Prop :=
  ∃ pre post,
    titulo.data.map Char.toLower = pre ++ titulo_parcial.data.map Char.toLower ++ post

/-- Lexicographic order test on character sequences, the order a
text `ORDER BY` clause would use. -/
def cadenaLE : List Char → List Char → Bool
  | [], _ => true
  | _ :: _, [] => false
  | a :: as, b :: bs => if a = b then cadenaLE as bs else decide (a < b)

/-- Specification-side statement that a row list is ordered by title
(adjacent titles never descend). -/
def titulosOrdenados : List Libro → Bool
  | a :: b :: rest => cadenaLE a.titulo.data b.titulo.data && titulosOrdenados (b :: rest)
  | _ => true

/-- Monetary value a committed ledger row contributes to the cash balance,
priced against the catalog (`precio_venta` of its book for a sale, minus
`precio_compra` times quantity for a restock); book prices are immutable
after registration, so this is the price at operation time. -/
def valorTransaccion (libros : List Libro) (tr : Transaccion) : ℚ :=
  match libros.find? (fun l => l.isbn == tr.isbn) with
  | none => 0
  | some l =>
    match tr.tipo with
    | .venta => l.precioVenta * (tr.cantidad : ℚ)
    | .abastecimiento => -(l.precioCompra * (tr.cantidad : ℚ))

/-- Signed sum of the committed ledger: sale income minus restock cost. -/
def sumaLedger (db : DB) : ℚ :=
  (db.transacciones.map (valorTransaccion db.libros)).sum

/-- One call to a mutating ledger operation with its arguments
(register, restock or sell, as in the conservation claim). -/
inductive Op where
  | registrar (isbn titulo : String) (precio_compra precio_venta : ℚ) (cantidad_inicial : Int)
  | abastecer (isbn : String) (cantidad : Int)
  | vender (isbn : String) (cantidad : Int)

/-- Run one operation with no injected write failures, keeping the resulting
store (a rejected call leaves the store as it was). -/
def aplicarOp (t : Tienda) : Op → Tienda
  | .registrar isbn titulo pc pv ci => (registrar_libro t [] isbn titulo pc pv ci).1
  | .abastecer isbn cantidad => (abastecer_libro t [] isbn cantidad).1
  | .vender isbn cantidad => (vender_libro t [] isbn cantidad).1

/-- Run a sequence of operations left to right. -/
def runOps (t : Tienda) : List Op → Tienda
  | [] => t
  | op :: rest => runOps (aplicarOp t op) rest

/-! ### Helper lemmas about the row-list primitives -/

/-- An `UPDATE ... WHERE ISBN = ?` touching no row of the list is the
identity. -/
theorem updateCantidad_fresh {isbn : String} {q : Int} :
    ∀ (libros : List Libro), (∀ l ∈ libros, (l.isbn == isbn) = false) →
      updateCantidad libros isbn q = libros := by
  intro libros
  induction libros with
  | nil => intro _; rfl
  | cons a as ih =>
    intro h
    have ha := h a (List.mem_cons_self a as)
    have has := fun l hl => h l (List.mem_cons_of_mem a hl)
    simp only [updateCantidad, List.map_cons, ha, Bool.false_eq_true, if_false]
    have htail := ih has
    simp only [updateCantidad] at htail
    rw [htail]

/-- A missing `SELECT ... WHERE ISBN = ?` result means no row matches. -/
theorem buscar_none_forall {db : DB} {isbn : String}
    (h : buscar_libro_por_isbn db isbn = none) :
    ∀ l ∈ db.libros, (l.isbn == isbn) = false := by
  intro l hl
  have := List.find?_eq_none.mp h l hl
  simpa using this

/-- After the stock `UPDATE`, the lookup returns the same row with the new
quantity. -/
theorem find?_updateCantidad_some {isbn : String} {q : Int} :
    ∀ (libros : List Libro) (libro : Libro),
      libros.find? (fun l => l.isbn == isbn) = some libro →
      (updateCantidad libros isbn q).find? (fun l => l.isbn == isbn)
        = some { libro with cantidadActual := q } := by
  intro libros
  induction libros with
  | nil => intro libro h; simp [List.find?] at h
  | cons a as ih =>
    intro libro h
    by_cases ha : (a.isbn == isbn) = true
    · rw [List.find?_cons_of_pos (p := fun l : Libro => l.isbn == isbn) as ha] at h
      injection h with h
      subst h
      simp only [updateCantidad, List.map_cons, ha, if_true]
      exact List.find?_cons_of_pos (p := fun l : Libro => l.isbn == isbn) _ (by simpa using ha)
    · rw [List.find?_cons_of_neg (p := fun l : Libro => l.isbn == isbn) as ha] at h
      simp only [updateCantidad, List.map_cons, if_neg ha]
      rw [List.find?_cons_of_neg (p := fun l : Libro => l.isbn == isbn) _ ha]
      have := ih libro h
      simpa [updateCantidad] using this

/-! ### The claims -/

/-- C4.  Registering an identifier already present in the catalog fails with
the duplicate-key message, leaves the whole store (catalog, ledger, balance)
untouched, and never reaches the transactional body. -/
theorem registrar_duplicado (t : Tienda) (faults : List Bool) (isbn titulo : String)
    (precio_compra precio_venta : ℚ) (cantidad_inicial : Int)
    (h : (buscar_libro_por_isbn t.db isbn).isSome = true) :
    registrar_libro t faults isbn titulo precio_compra precio_venta cantidad_inicial
      = (t, false, .errDuplicateKey) := by
  unfold registrar_libro
  simp [h]

/-- Witness for `registrar_duplicado` at a concrete store. -/
theorem registrar_duplicado_witness :
    registrar_libro ⟨⟨[⟨"111", "A", 1, 2, 0⟩], [], some 5⟩, 5⟩ [] "111" "X" 1 2 0
      = (⟨⟨[⟨"111", "A", 1, 2, 0⟩], [], some 5⟩, 5⟩, false, .errDuplicateKey) :=
  registrar_duplicado ⟨⟨[⟨"111", "A", 1, 2, 0⟩], [], some 5⟩, 5⟩ [] "111" "X" 1 2 0
    (by decide)

/-- C6.  Selling more than the current stock of an existing book fails with
the insufficient-stock message before any write: the returned store is the
entry store. -/
theorem vender_stock_insuficiente (t : Tienda) (faults : List Bool) (isbn : String)
    (cantidad : Int) (libro : Libro)
    (hb : buscar_libro_por_isbn t.db isbn = some libro)
    (hq : 0 < cantidad) (hs : libro.cantidadActual < cantidad) :
    vender_libro t faults isbn cantidad = (t, false, .errInsufficientStock) := by
  unfold vender_libro
  rw [hb]
  simp only [if_neg (by omega : ¬ cantidad ≤ 0), if_pos hs]

/-- Witness for `vender_stock_insuficiente`: scenario C of the spec,
selling 10 with stock 5. -/
theorem vender_stock_insuficiente_witness :
    vender_libro ⟨⟨[⟨"111", "Book A", 100, 200, 5⟩], [], some 500⟩, 500⟩ [] "111" 10
      = (⟨⟨[⟨"111", "Book A", 100, 200, 5⟩], [], some 500⟩, 500⟩, false,
         .errInsufficientStock) :=
  vender_stock_insuficiente ⟨⟨[⟨"111", "Book A", 100, 200, 5⟩], [], some 500⟩, 500⟩ []
    "111" 10 ⟨"111", "Book A", 100, 200, 5⟩ (by decide) (by decide) (by decide)

/-- C7, counterexample to the claim as stated.  A restock call with
non-positive quantity does not always fail with the invalid-quantity result:
when the identifier is unknown, the existence check fires first, so the call
fails with the not-found result instead. -/
theorem cantidad_no_positiva_contraejemplo :
    abastecer_libro (tiendaInicial 1000) [] "999" 0
      = (tiendaInicial 1000, false, Resultado.errNotFound)
    ∧ Resultado.errNotFound ≠ Resultado.errInvalidQuantity := by
  constructor
  · rfl
  · decide

/-- C7 as amended.  For a book present in the catalog, a restock or sell call
with non-positive quantity fails with the invalid-quantity result and performs
no write; an unknown identifier instead fails with not-found, because the
existence check precedes the quantity check. -/
theorem cantidad_no_positiva_invalida (t : Tienda) (faults : List Bool) (isbn : String)
    (cantidad : Int) (hq : cantidad ≤ 0)
    (hb : (buscar_libro_por_isbn t.db isbn).isSome = true) :
    abastecer_libro t faults isbn cantidad = (t, false, .errInvalidQuantity)
    ∧ vender_libro t faults isbn cantidad = (t, false, .errInvalidQuantity) := by
  obtain ⟨libro, hb'⟩ := Option.isSome_iff_exists.mp hb
  constructor
  · unfold abastecer_libro
    rw [hb']
    simp only [if_pos hq]
  · unfold vender_libro
    rw [hb']
    simp only [if_pos hq]

/-- Witness for `cantidad_no_positiva_invalida` with an existing book and
quantity 0. -/
theorem cantidad_no_positiva_invalida_witness :
    abastecer_libro ⟨⟨[⟨"111", "A", 1, 2, 3⟩], [], some 5⟩, 5⟩ [] "111" 0
      = (⟨⟨[⟨"111", "A", 1, 2, 3⟩], [], some 5⟩, 5⟩, false, .errInvalidQuantity)
    ∧ vender_libro ⟨⟨[⟨"111", "A", 1, 2, 3⟩], [], some 5⟩, 5⟩ [] "111" 0
      = (⟨⟨[⟨"111", "A", 1, 2, 3⟩], [], some 5⟩, 5⟩, false, .errInvalidQuantity) :=
  cantidad_no_positiva_invalida ⟨⟨[⟨"111", "A", 1, 2, 3⟩], [], some 5⟩, 5⟩ [] "111" 0
    (by decide) (by decide)

/-- C10.  Registration never validates that the initial quantity is
non-negative: with a fresh identifier and a strictly negative initial
quantity, the catalog row is inserted carrying that negative quantity, no
ledger row is created, the balance is untouched and the call reports plain
success — the stock-never-negative invariant is not enforced at this entry
point. -/
theorem registrar_cantidad_negativa (t : Tienda) (isbn titulo : String)
    (precio_compra precio_venta : ℚ) (cantidad_inicial : Int)
    (hb : buscar_libro_por_isbn t.db isbn = none) (hci : cantidad_inicial < 0) :
    registrar_libro t [] isbn titulo precio_compra precio_venta cantidad_inicial
      = (⟨⟨t.db.libros ++ [⟨isbn, titulo, precio_compra, precio_venta, cantidad_inicial⟩],
           t.db.transacciones, t.db.configCaja⟩, t.caja⟩,
         true, .exitoRegistrado) := by
  unfold registrar_libro regBody
  rw [hb]
  simp only [Option.isSome_none, Bool.false_eq_true, if_false, List.getD_nil,
    if_neg (by omega : ¬ cantidad_inicial > 0)]

/-- Witness for `registrar_cantidad_negativa` with initial quantity `-3`. -/
theorem registrar_cantidad_negativa_witness :
    registrar_libro (tiendaInicial 1000) [] "333" "Neg" 100 200 (-3)
      = (⟨⟨[⟨"333", "Neg", 100, 200, -3⟩], [], some 1000⟩, 1000⟩,
         true, .exitoRegistrado) :=
  registrar_cantidad_negativa (tiendaInicial 1000) "333" "Neg" 100 200 (-3)
    (by decide) (by decide)

/-- Inserting a fresh row and then correcting its quantity leaves the
earlier rows untouched and the new row with the corrected quantity. -/
theorem updateCantidad_append_fresh {isbn titulo : String} {pc pv : ℚ} {ci q : Int}
    {libros : List Libro} (h : ∀ l ∈ libros, (l.isbn == isbn) = false) :
    updateCantidad (libros ++ [⟨isbn, titulo, pc, pv, ci⟩]) isbn q
      = libros ++ [⟨isbn, titulo, pc, pv, q⟩] := by
  have h1 := @updateCantidad_fresh isbn q libros h
  simp only [updateCantidad, List.map_append] at h1 ⊢
  rw [h1]
  simp

/-- C3.  Registering a book with positive initial quantity while the cash
balance is strictly below the restock cost succeeds with the unfunded-stock
message: the catalog row ends with quantity 0, the cash balance and its
persisted copy are untouched, and no ledger row is created. -/
theorem registrar_sin_fondos (t : Tienda) (isbn titulo : String)
    (precio_compra precio_venta : ℚ) (cantidad_inicial : Int)
    (hb : buscar_libro_por_isbn t.db isbn = none) (hci : 0 < cantidad_inicial)
    (hcaja : t.caja < precio_compra * (cantidad_inicial : ℚ)) :
    registrar_libro t [] isbn titulo precio_compra precio_venta cantidad_inicial
      = (⟨⟨t.db.libros ++ [⟨isbn, titulo, precio_compra, precio_venta, 0⟩],
           t.db.transacciones, t.db.configCaja⟩, t.caja⟩,
         true, .exitoRegistradoSinFondos) := by
  unfold registrar_libro regBody
  rw [hb]
  simp only [Option.isSome_none, Bool.false_eq_true, if_false, List.getD_nil,
    if_pos (by omega : cantidad_inicial > 0), if_neg (not_le.mpr hcaja)]
  rw [updateCantidad_append_fresh (buscar_none_forall hb)]

/-- Witness for `registrar_sin_fondos`: scenario B of the spec, registering
5 copies at cost 100 with only 50 in cash. -/
theorem registrar_sin_fondos_witness :
    registrar_libro (tiendaInicial 50) [] "222" "Book B" 100 200 5
      = (⟨⟨[⟨"222", "Book B", 100, 200, 0⟩], [], some 50⟩, 50⟩,
         true, .exitoRegistradoSinFondos) :=
  registrar_sin_fondos (tiendaInicial 50) "222" "Book B" 100 200 5
    (by decide) (by decide) (by norm_num [tiendaInicial])

/-- C5.  Selling an available quantity of an existing book succeeds: the
stock row is decreased by the quantity, the cash balance is credited with
sale price times quantity and that value is persisted under the reserved key,
and exactly one sale ledger row of that quantity is appended — all in the
single committed store returned by the call. -/
theorem vender_exitoso (t : Tienda) (isbn : String) (cantidad : Int) (libro : Libro)
    (hb : buscar_libro_por_isbn t.db isbn = some libro)
    (hq : 0 < cantidad) (hs : cantidad ≤ libro.cantidadActual) :
    vender_libro t [] isbn cantidad
      = (⟨⟨updateCantidad t.db.libros isbn (libro.cantidadActual - cantidad),
           t.db.transacciones ++ [⟨isbn, .venta, cantidad⟩],
           some (t.caja + libro.precioVenta * (cantidad : ℚ))⟩,
          t.caja + libro.precioVenta * (cantidad : ℚ)⟩,
         true, .exitoVendido)
    ∧ buscar_libro_por_isbn (vender_libro t [] isbn cantidad).1.db isbn
        = some { libro with cantidadActual := libro.cantidadActual - cantidad } := by
  have hmain :
      vender_libro t [] isbn cantidad
        = (⟨⟨updateCantidad t.db.libros isbn (libro.cantidadActual - cantidad),
             t.db.transacciones ++ [⟨isbn, .venta, cantidad⟩],
             some (t.caja + libro.precioVenta * (cantidad : ℚ))⟩,
            t.caja + libro.precioVenta * (cantidad : ℚ)⟩,
           true, .exitoVendido) := by
    unfold vender_libro ventaBody
    rw [hb]
    simp only [if_neg (by omega : ¬ cantidad ≤ 0), if_neg (not_lt.mpr hs),
      List.getD_nil, Bool.false_eq_true, if_false]
  refine ⟨hmain, ?_⟩
  rw [hmain]
  exact find?_updateCantidad_some t.db.libros libro hb

/-- Witness for `vender_exitoso`: scenario D of the spec, selling 2 of 5 at
price 200 with balance 500, ending at stock 3 and balance 900. -/
theorem vender_exitoso_witness :
    vender_libro ⟨⟨[⟨"111", "Book A", 100, 200, 5⟩], [], some 500⟩, 500⟩ [] "111" 2
      = (⟨⟨[⟨"111", "Book A", 100, 200, 3⟩],
           [⟨"111", .venta, 2⟩], some 900⟩, 900⟩, true, .exitoVendido)
    ∧ buscar_libro_por_isbn
        (vender_libro ⟨⟨[⟨"111", "Book A", 100, 200, 5⟩], [], some 500⟩, 500⟩ [] "111" 2).1.db
        "111" = some ⟨"111", "Book A", 100, 200, 3⟩ := by
  have h := vender_exitoso ⟨⟨[⟨"111", "Book A", 100, 200, 5⟩], [], some 500⟩, 500⟩
    "111" 2 ⟨"111", "Book A", 100, 200, 5⟩ (by decide) (by decide) (by decide)
  exact ⟨h.1.trans (by norm_num [updateCantidad]), h.2.trans (by norm_num)⟩

/-- C1.  Atomicity of the three mutating operations: once the transactional
body has begun (every precondition passed) and any of its write steps raises,
the call returns the entry store unchanged — durable writes discarded by the
rollback, the in-memory balance restored to its entry snapshot — together
with a failure flag and the descriptive persistence message, instead of
propagating the exception. -/
theorem fallo_escritura_revierte :
    (∀ (t : Tienda) (faults : List Bool) (isbn titulo : String)
        (precio_compra precio_venta : ℚ) (cantidad_inicial : Int) (e : String),
        buscar_libro_por_isbn t.db isbn = none →
        regBody t.db t.caja faults isbn titulo precio_compra precio_venta cantidad_inicial
          = .error e →
        registrar_libro t faults isbn titulo precio_compra precio_venta cantidad_inicial
          = (t, false, .errPersistencia e))
    ∧ (∀ (t : Tienda) (faults : List Bool) (isbn : String) (cantidad : Int)
        (libro : Libro) (e : String),
        buscar_libro_por_isbn t.db isbn = some libro →
        ¬ cantidad ≤ 0 →
        ¬ t.caja < libro.precioCompra * (cantidad : ℚ) →
        abBody t.db t.caja faults isbn libro cantidad = .error e →
        abastecer_libro t faults isbn cantidad = (t, false, .errPersistencia e))
    ∧ (∀ (t : Tienda) (faults : List Bool) (isbn : String) (cantidad : Int)
        (libro : Libro) (e : String),
        buscar_libro_por_isbn t.db isbn = some libro →
        ¬ cantidad ≤ 0 →
        ¬ libro.cantidadActual < cantidad →
        ventaBody t.db t.caja faults isbn libro cantidad = .error e →
        vender_libro t faults isbn cantidad = (t, false, .errPersistencia e)) := by
  refine ⟨?_, ?_, ?_⟩
  · intro t faults isbn titulo pc pv ci e hb hbody
    unfold registrar_libro
    rw [hb]
    simp only [Option.isSome_none, Bool.false_eq_true, if_false]
    rw [hbody]
  · intro t faults isbn cantidad libro e hb hq hcaja hbody
    unfold abastecer_libro
    rw [hb]
    simp only [if_neg hq, if_neg hcaja]
    rw [hbody]
  · intro t faults isbn cantidad libro e hb hq hs hbody
    unfold vender_libro
    rw [hb]
    simp only [if_neg hq, if_neg hs]
    rw [hbody]

/-- Witness for `fallo_escritura_revierte`: one injected failure per
operation (the ledger INSERT of a funded registration, the stock UPDATE of a
restock, and the balance UPDATE of a sale), each rolling back to the entry
store. -/
theorem fallo_escritura_revierte_witness :
    registrar_libro (tiendaInicial 1000) [true] "111" "Book A" 100 200 5
      = (tiendaInicial 1000, false,
         .errPersistencia "Error al insertar el libro en la tabla Libros.")
    ∧ abastecer_libro ⟨⟨[⟨"111", "A", 100, 200, 5⟩], [], some 500⟩, 500⟩ [true] "111" 2
      = (⟨⟨[⟨"111", "A", 100, 200, 5⟩], [], some 500⟩, 500⟩, false,
         .errPersistencia "Fallo al actualizar el stock del libro.")
    ∧ vender_libro ⟨⟨[⟨"111", "A", 100, 200, 5⟩], [], some 500⟩, 500⟩ [false, true] "111" 2
      = (⟨⟨[⟨"111", "A", 100, 200, 5⟩], [], some 500⟩, 500⟩, false,
         .errPersistencia "Fallo al preparar la actualizacion de la caja en la base de datos.") :=
  ⟨fallo_escritura_revierte.1 (tiendaInicial 1000) [true] "111" "Book A"
      100 200 5 _ (by decide) (by rfl),
   fallo_escritura_revierte.2.1 ⟨⟨[⟨"111", "A", 100, 200, 5⟩], [], some 500⟩, 500⟩ [true]
      "111" 2 ⟨"111", "A", 100, 200, 5⟩ _ (by decide) (by decide)
      (by norm_num) (by rfl),
   fallo_escritura_revierte.2.2 ⟨⟨[⟨"111", "A", 100, 200, 5⟩], [], some 500⟩, 500⟩
      [false, true] "111" 2 ⟨"111", "A", 100, 200, 5⟩ _ (by decide) (by decide) (by decide)
      (by rfl)⟩

/-- C9.  After the balance-loading step the in-memory balance is always
defined: it is the persisted value under the reserved key when that read
yields one, otherwise the default seed; in the latter case the seed is
persisted by one independently committed write, and if that write fails the
seed is kept in memory only and the non-fatal warning is reported. -/
theorem caja_cargada_definida (db : DB) (seed : ℚ) (selectFails insertFails : Bool) :
    (selectFails = false → ∀ v, db.configCaja = some v →
        cargar_caja_desde_db db seed selectFails insertFails = (db, v, false))
    ∧ ((selectFails = true ∨ db.configCaja = none) →
        (cargar_caja_desde_db db seed selectFails insertFails).2.1 = seed
        ∧ (insertFails = false →
            cargar_caja_desde_db db seed selectFails insertFails
              = ({ db with configCaja := some seed }, seed, false))
        ∧ (insertFails = true →
            cargar_caja_desde_db db seed selectFails insertFails = (db, seed, true))) := by
  unfold cargar_caja_desde_db
  cases selectFails with
  | false =>
    cases hc : db.configCaja with
    | some v => simp [hc]
    | none => cases insertFails <;> simp [hc]
  | true => cases insertFails <;> simp

/-- Witness for `caja_cargada_definida`: both the adopt-persisted case and
the failed-seed-write case at concrete stores. -/
theorem caja_cargada_definida_witness :
    cargar_caja_desde_db ⟨[], [], some 42⟩ 7 false false = (⟨[], [], some 42⟩, 42, false)
    ∧ cargar_caja_desde_db ⟨[], [], none⟩ 7 false true = (⟨[], [], none⟩, 7, true) :=
  ⟨(caja_cargada_definida ⟨[], [], some 42⟩ 7 false false).1 rfl 42 rfl,
   ((caja_cargada_definida ⟨[], [], none⟩ 7 false true).2 (Or.inr rfl)).2.2 rfl⟩

/-- The boolean head-of-list test agrees with the existential statement. -/
theorem esPrefijoDe_iff : ∀ (sub s : List Char),
    esPrefijoDe sub s = true ↔ ∃ post, s = sub ++ post := by
  intro sub
  induction sub with
  | nil => intro s; simp [esPrefijoDe]
  | cons a as ih =>
    intro s
    cases s with
    | nil =>
      simp [esPrefijoDe]
    | cons b bs =>
      simp only [esPrefijoDe, Bool.and_eq_true, beq_iff_eq, List.cons_append,
        List.cons.injEq]
      constructor
      · rintro ⟨rfl, h⟩
        obtain ⟨post, rfl⟩ := (ih bs).mp h
        exact ⟨post, rfl, rfl⟩
      · rintro ⟨post, rfl, rfl⟩
        exact ⟨rfl, (ih _).mpr ⟨post, rfl⟩⟩

/-- The boolean contiguous-containment test agrees with the existential
statement. -/
theorem esInfijoDe_iff : ∀ (s sub : List Char),
    esInfijoDe sub s = true ↔ ∃ pre post, s = pre ++ sub ++ post := by
  intro s
  induction s with
  | nil =>
    intro sub
    simp only [esInfijoDe]
    rw [esPrefijoDe_iff]
    constructor
    · rintro ⟨post, h⟩
      exact ⟨[], post, by simpa using h⟩
    · rintro ⟨pre, post, h⟩
      rw [eq_comm, List.append_eq_nil, List.append_eq_nil] at h
      exact ⟨[], by simp [h.1.2]⟩
  | cons b bs ih =>
    intro sub
    simp only [esInfijoDe, Bool.or_eq_true]
    rw [esPrefijoDe_iff, ih]
    constructor
    · rintro (⟨post, h⟩ | ⟨pre, post, h⟩)
      · exact ⟨[], post, by simpa using h⟩
      · exact ⟨b :: pre, post, by simp [h]⟩
    · rintro ⟨pre, post, h⟩
      cases pre with
      | nil => exact Or.inl ⟨post, by simpa using h⟩
      | cons c cs =>
        simp only [List.cons_append, List.cons.injEq] at h
        exact Or.inr ⟨cs, post, h.2⟩

/-- C8, counterexample to the claim as stated.  The partial-title lookup does
not return its matches ordered by title: after registering title `b` and then
title `a` (both matching the empty search string), the result sequence is in
table order `[b, a]`, which is not ordered by title. -/
theorem busqueda_titulo_orden_contraejemplo :
    buscar_libros_por_titulo
        ((registrar_libro ((registrar_libro (tiendaInicial 1000) [] "2" "b" 1 2 0).1)
            [] "1" "a" 1 2 0).1).db ""
      = [⟨"2", "b", 1, 2, 0⟩, ⟨"1", "a", 1, 2, 0⟩]
    ∧ titulosOrdenados [⟨"2", "b", 1, 2, 0⟩, ⟨"1", "a", 1, 2, 0⟩] = false := by
  constructor
  · decide
  · decide

/-- C8 as amended.  The partial-title lookup returns exactly the books whose
title contains the search string as a case-insensitive substring, in catalog
table order (the query has no ordering clause, so the rows keep their stored
order rather than being ordered by title), and the empty sequence when no
book matches. -/
theorem busqueda_titulo_filtrado (db : DB) (titulo_parcial : String) :
    (∀ l, l ∈ buscar_libros_por_titulo db titulo_parcial ↔
        l ∈ db.libros ∧ TituloContiene titulo_parcial l.titulo)
    ∧ (buscar_libros_por_titulo db titulo_parcial).Sublist db.libros
    ∧ ((∀ l ∈ db.libros, ¬ TituloContiene titulo_parcial l.titulo) →
        buscar_libros_por_titulo db titulo_parcial = []) := by
  have hiff : ∀ l : Libro,
      coincideTitulo titulo_parcial l.titulo = true ↔
        TituloContiene titulo_parcial l.titulo := by
    intro l
    unfold coincideTitulo TituloContiene
    exact esInfijoDe_iff _ _
  refine ⟨?_, ?_, ?_⟩
  · intro l
    rw [buscar_libros_por_titulo, List.mem_filter, hiff]
  · exact List.filter_sublist _
  · intro h
    rw [buscar_libros_por_titulo, List.filter_eq_nil_iff]
    intro l hl
    rw [hiff l]
    exact h l hl

/-- Witness for `busqueda_titulo_filtrado`: a case-insensitive hit and a miss
on a one-book catalog. -/
theorem busqueda_titulo_filtrado_witness :
    TituloContiene "RINC" "El Principito"
    ∧ ¬ TituloContiene "xyz" "El Principito" := by
  constructor
  · exact (((busqueda_titulo_filtrado ⟨[⟨"1", "El Principito", 1, 2, 0⟩], [], none⟩
      "RINC").1 ⟨"1", "El Principito", 1, 2, 0⟩).mp (by decide)).2
  · intro hcont
    have hmem := ((busqueda_titulo_filtrado ⟨[⟨"1", "El Principito", 1, 2, 0⟩], [], none⟩
      "xyz").1 ⟨"1", "El Principito", 1, 2, 0⟩).mpr ⟨by decide, hcont⟩
    exact absurd hmem (by decide)

/-! ### Conservation of the cash balance (C2) -/

/-- The stock `UPDATE` maps the ISBN lookup through the quantity rewrite. -/
theorem find?_isbn_updateCantidad (x isbn : String) (q : Int) :
    ∀ (libros : List Libro),
      (updateCantidad libros isbn q).find? (fun l => l.isbn == x)
        = (libros.find? (fun l => l.isbn == x)).map
            (fun l => if l.isbn == isbn then { l with cantidadActual := q } else l) := by
  intro libros
  induction libros with
  | nil => rfl
  | cons a as ih =>
    simp only [updateCantidad, List.map_cons]
    by_cases hax : (a.isbn == x) = true
    · have h1 : (((if (a.isbn == isbn) = true then { a with cantidadActual := q } else a) :
          Libro).isbn == x) = true := by
        split <;> simpa using hax
      rw [List.find?_cons_of_pos (p := fun l : Libro => l.isbn == x) _ h1,
        List.find?_cons_of_pos (p := fun l : Libro => l.isbn == x) _ hax]
      rfl
    · have h1 : ¬ (((if (a.isbn == isbn) = true then { a with cantidadActual := q } else a) :
          Libro).isbn == x) = true := by
        split <;> simpa using hax
      rw [List.find?_cons_of_neg (p := fun l : Libro => l.isbn == x) _ h1,
        List.find?_cons_of_neg (p := fun l : Libro => l.isbn == x) _ hax]
      simpa [updateCantidad] using ih

/-- A stock `UPDATE` does not change any ledger row's monetary value: the
prices and keys of the catalog rows are untouched. -/
theorem valorTransaccion_updateCantidad (libros : List Libro) (isbn : String) (q : Int)
    (tr : Transaccion) :
    valorTransaccion (updateCantidad libros isbn q) tr = valorTransaccion libros tr := by
  unfold valorTransaccion
  rw [find?_isbn_updateCantidad]
  cases hf : libros.find? (fun l => l.isbn == tr.isbn) with
  | none => rfl
  | some l =>
    simp only [Option.map_some']
    by_cases h : (l.isbn == isbn) = true
    · rw [if_pos h]
    · rw [if_neg h]

/-- Appending a catalog row does not change the value of a ledger row whose
book is already found. -/
theorem valorTransaccion_append {libros : List Libro} {nuevo : Libro} {tr : Transaccion}
    (h : (libros.find? (fun l => l.isbn == tr.isbn)).isSome = true) :
    valorTransaccion (libros ++ [nuevo]) tr = valorTransaccion libros tr := by
  unfold valorTransaccion
  rw [List.find?_append]
  obtain ⟨x, hx⟩ := Option.isSome_iff_exists.mp h
  rw [hx]
  rfl

/-- Value of a restock ledger row priced by a newly appended catalog row
with a previously absent key. -/
theorem valorTransaccion_nuevo (libros : List Libro) (isbn titulo : String)
    (pc pv : ℚ) (ci : Int) (cantidad : Int)
    (hb : libros.find? (fun l => l.isbn == isbn) = none) :
    valorTransaccion (libros ++ [⟨isbn, titulo, pc, pv, ci⟩])
        ⟨isbn, .abastecimiento, cantidad⟩
      = -(pc * (cantidad : ℚ)) := by
  unfold valorTransaccion
  dsimp only
  rw [List.find?_append, hb]
  simp [List.find?_cons]

/-- Value of a restock ledger row priced by an existing catalog row. -/
theorem valorTransaccion_existente_ab (libros : List Libro) (isbn : String) (la : Libro)
    (cantidad : Int)
    (hb : libros.find? (fun l => l.isbn == isbn) = some la) :
    valorTransaccion libros ⟨isbn, .abastecimiento, cantidad⟩
      = -(la.precioCompra * (cantidad : ℚ)) := by
  unfold valorTransaccion
  dsimp only
  rw [hb]

/-- Value of a sale ledger row priced by an existing catalog row. -/
theorem valorTransaccion_existente_venta (libros : List Libro) (isbn : String)
    (la : Libro) (cantidad : Int)
    (hb : libros.find? (fun l => l.isbn == isbn) = some la) :
    valorTransaccion libros ⟨isbn, .venta, cantidad⟩
      = la.precioVenta * (cantidad : ℚ) := by
  unfold valorTransaccion
  dsimp only
  rw [hb]

/-- Invariant carried through operation sequences for the conservation
theorem: the balance equation, plus the fact that every ledger row still
references a catalog row (true in all states reachable without deletions). -/
def InvConserva (seed : ℚ) (t : Tienda) : Prop :=
  t.caja = seed + sumaLedger t.db
  ∧ ∀ tr ∈ t.db.transacciones,
      (t.db.libros.find? (fun l => l.isbn == tr.isbn)).isSome = true

/-- `regBody` with no injected faults, by branch. -/
theorem regBody_nil (db : DB) (caja : ℚ) (isbn titulo : String)
    (pc pv : ℚ) (ci : Int) :
    regBody db caja [] isbn titulo pc pv ci
      = (if ci > 0 then
          if caja ≥ pc * (ci : ℚ) then
            .ok (⟨db.libros ++ [⟨isbn, titulo, pc, pv, ci⟩],
                  db.transacciones ++ [⟨isbn, .abastecimiento, ci⟩],
                  some (caja - pc * (ci : ℚ))⟩,
                 caja - pc * (ci : ℚ), .exitoRegistradoConAbastecimiento)
          else
            .ok (⟨updateCantidad (db.libros ++ [⟨isbn, titulo, pc, pv, ci⟩]) isbn 0,
                  db.transacciones, db.configCaja⟩,
                 caja, .exitoRegistradoSinFondos)
        else
          .ok (⟨db.libros ++ [⟨isbn, titulo, pc, pv, ci⟩],
                db.transacciones, db.configCaja⟩,
               caja, .exitoRegistrado)) := rfl

/-- `abBody` with no injected faults. -/
theorem abBody_nil (db : DB) (caja : ℚ) (isbn : String) (libro : Libro) (cantidad : Int) :
    abBody db caja [] isbn libro cantidad
      = .ok (⟨updateCantidad db.libros isbn (libro.cantidadActual + cantidad),
              db.transacciones ++ [⟨isbn, .abastecimiento, cantidad⟩],
              some (caja - libro.precioCompra * (cantidad : ℚ))⟩,
             caja - libro.precioCompra * (cantidad : ℚ), .exitoAbastecido) := rfl

/-- `ventaBody` with no injected faults. -/
theorem ventaBody_nil (db : DB) (caja : ℚ) (isbn : String) (libro : Libro) (cantidad : Int) :
    ventaBody db caja [] isbn libro cantidad
      = .ok (⟨updateCantidad db.libros isbn (libro.cantidadActual - cantidad),
              db.transacciones ++ [⟨isbn, .venta, cantidad⟩],
              some (caja + libro.precioVenta * (cantidad : ℚ))⟩,
             caja + libro.precioVenta * (cantidad : ℚ), .exitoVendido) := rfl

/-- Each fault-free operation preserves the conservation invariant. -/
theorem aplicarOp_conserva (seed : ℚ) (t : Tienda) (op : Op)
    (h : InvConserva seed t) : InvConserva seed (aplicarOp t op) := by
  obtain ⟨hcaja, htr⟩ := h
  cases op with
  | registrar isbn titulo pc pv ci =>
    show InvConserva seed (registrar_libro t [] isbn titulo pc pv ci).1
    unfold registrar_libro
    cases hb : buscar_libro_por_isbn t.db isbn with
    | some l =>
      simp only [hb, Option.isSome_some, if_true]
      exact ⟨hcaja, htr⟩
    | none =>
      unfold buscar_libro_por_isbn at hb
      simp only [hb, Option.isSome_none, Bool.false_eq_true, if_false, regBody_nil]
      by_cases hci : ci > 0
      · by_cases hfunds : t.caja ≥ pc * (ci : ℚ)
        · simp only [if_pos hci, if_pos hfunds]
          constructor
          · show t.caja - pc * (ci : ℚ) = seed + sumaLedger _
            unfold sumaLedger
            dsimp only
            rw [List.map_append,
              List.map_congr_left (fun tr h => valorTransaccion_append (htr tr h)),
              List.sum_append, List.map_singleton, List.sum_singleton,
              valorTransaccion_nuevo t.db.libros isbn titulo pc pv ci ci hb]
            unfold sumaLedger at hcaja
            rw [hcaja]
            ring
          · intro tr hmem
            dsimp only at hmem ⊢
            rcases List.mem_append.mp hmem with hold | hnew
            · rw [List.find?_append]
              obtain ⟨x, hx⟩ := Option.isSome_iff_exists.mp (htr tr hold)
              rw [hx]
              rfl
            · rw [List.mem_singleton.mp hnew]
              rw [List.find?_append, hb]
              simp [List.find?_cons]
        · simp only [if_pos hci, if_neg hfunds]
          constructor
          · show t.caja = seed + sumaLedger _
            unfold sumaLedger
            dsimp only
            rw [List.map_congr_left
                (fun tr _ => valorTransaccion_updateCantidad _ isbn 0 tr),
              List.map_congr_left (fun tr h => valorTransaccion_append (htr tr h))]
            exact hcaja
          · intro tr hmem
            dsimp only at hmem ⊢
            rw [find?_isbn_updateCantidad, Option.isSome_map', List.find?_append]
            obtain ⟨x, hx⟩ := Option.isSome_iff_exists.mp (htr tr hmem)
            rw [hx]
            rfl
      · simp only [if_neg hci]
        constructor
        · show t.caja = seed + sumaLedger _
          unfold sumaLedger
          dsimp only
          rw [List.map_congr_left (fun tr h => valorTransaccion_append (htr tr h))]
          exact hcaja
        · intro tr hmem
          dsimp only at hmem ⊢
          rw [List.find?_append]
          obtain ⟨x, hx⟩ := Option.isSome_iff_exists.mp (htr tr hmem)
          rw [hx]
          rfl
  | abastecer isbn cantidad =>
    show InvConserva seed (abastecer_libro t [] isbn cantidad).1
    unfold abastecer_libro
    cases hb : buscar_libro_por_isbn t.db isbn with
    | none => exact ⟨hcaja, htr⟩
    | some la =>
      unfold buscar_libro_por_isbn at hb
      by_cases hq : cantidad ≤ 0
      · simp only [if_pos hq]
        exact ⟨hcaja, htr⟩
      · by_cases hf : t.caja < la.precioCompra * (cantidad : ℚ)
        · simp only [if_neg hq, if_pos hf]
          exact ⟨hcaja, htr⟩
        · simp only [if_neg hq, if_neg hf, abBody_nil]
          constructor
          · show t.caja - la.precioCompra * (cantidad : ℚ) = seed + sumaLedger _
            unfold sumaLedger
            dsimp only
            rw [List.map_append,
              List.map_congr_left
                (fun tr _ => valorTransaccion_updateCantidad _ isbn _ tr),
              List.sum_append, List.map_singleton, List.sum_singleton,
              valorTransaccion_updateCantidad t.db.libros isbn _
                ⟨isbn, .abastecimiento, cantidad⟩,
              valorTransaccion_existente_ab t.db.libros isbn la cantidad hb]
            unfold sumaLedger at hcaja
            rw [hcaja]
            ring
          · intro tr hmem
            dsimp only at hmem ⊢
            rcases List.mem_append.mp hmem with hold | hnew
            · rw [find?_isbn_updateCantidad, Option.isSome_map']
              exact htr tr hold
            · rw [List.mem_singleton.mp hnew]
              rw [find?_updateCantidad_some t.db.libros la hb]
              rfl
  | vender isbn cantidad =>
    show InvConserva seed (vender_libro t [] isbn cantidad).1
    unfold vender_libro
    cases hb : buscar_libro_por_isbn t.db isbn with
    | none => exact ⟨hcaja, htr⟩
    | some la =>
      unfold buscar_libro_por_isbn at hb
      by_cases hq : cantidad ≤ 0
      · simp only [if_pos hq]
        exact ⟨hcaja, htr⟩
      · by_cases hs : la.cantidadActual < cantidad
        · simp only [if_neg hq, if_pos hs]
          exact ⟨hcaja, htr⟩
        · simp only [if_neg hq, if_neg hs, ventaBody_nil]
          constructor
          · show t.caja + la.precioVenta * (cantidad : ℚ) = seed + sumaLedger _
            unfold sumaLedger
            dsimp only
            rw [List.map_append,
              List.map_congr_left
                (fun tr _ => valorTransaccion_updateCantidad _ isbn _ tr),
              List.sum_append, List.map_singleton, List.sum_singleton,
              valorTransaccion_updateCantidad t.db.libros isbn _
                ⟨isbn, .venta, cantidad⟩,
              valorTransaccion_existente_venta t.db.libros isbn la cantidad hb]
            unfold sumaLedger at hcaja
            rw [hcaja]
            ring
          · intro tr hmem
            dsimp only at hmem ⊢
            rcases List.mem_append.mp hmem with hold | hnew
            · rw [find?_isbn_updateCantidad, Option.isSome_map']
              exact htr tr hold
            · rw [List.mem_singleton.mp hnew]
              rw [find?_updateCantidad_some t.db.libros la hb]
              rfl

/-- The invariant holds along any fault-free operation sequence. -/
theorem runOps_conserva (seed : ℚ) :
    ∀ (ops : List Op) (t : Tienda), InvConserva seed t → InvConserva seed (runOps t ops)
  | [], _, h => h
  | op :: rest, t, h =>
    runOps_conserva seed rest (aplicarOp t op) (aplicarOp_conserva seed t op h)

/-- C2.  Balance conservation: after any sequence of the mutating ledger
operations (register — including its implicit funded restock —, restock,
sell) run from the freshly seeded store, the cash balance equals the initial
seed plus the signed value of the committed ledger: sale price times quantity
summed over sale rows minus purchase cost times quantity summed over restock
rows, each row priced by its book's (immutable) catalog prices. -/
theorem conservacion_caja (seed : ℚ) (ops : List Op) :
    (runOps (tiendaInicial seed) ops).caja
      = seed + sumaLedger (runOps (tiendaInicial seed) ops).db := by
  have h0 : InvConserva seed (tiendaInicial seed) := by
    constructor
    · show seed = seed + sumaLedger ⟨[], [], some seed⟩
      simp [sumaLedger]
    · intro tr htr
      simp [tiendaInicial] at htr
  exact (runOps_conserva seed ops (tiendaInicial seed) h0).1

end TiendaLibros
